import Mathlib

/-!
Verification development for the `hiiting-time` interval-timer widget.

Two source variants of the timer core are modelled:

* `Hiit` — the status-enum variant (`src/unnamed/part_003` together with
  `src/src/state.js`, `src/src/app.js` and `src/src/ui.js`): timer status is an
  enumeration `{idle, countdown, running, paused}` and the countdown stores its
  pending `setTimeout` handle in `countdownTimeoutId`.
* `HiitFlag` — the boolean-flag variant (`src/src/timer.js` with the state of
  `src/unnamed/part_002`): status lives in `isRunning` / `isCountingDown`
  booleans, durations are kept in seconds, and countdown waits are anonymous
  (never stored, hence never cleared).

Timestamps (`performance.now()` readings) and millisecond quantities are
embedded as integers; the monotonic clock is passed explicitly to every
operation that reads it in the source.
-/

namespace Hiit

/-- Timer status enumeration, from `src/src/state.js` (`TimerStatus`). -/
inductive TimerStatus where
  | idle
  | countdown
  | running
  | paused
  deriving DecidableEq

/-- Timer state of the status-enum variant, from `src/src/state.js`
(`_state`).  The `audioContext` field is an external adapter handle never read
by the modelled logic and is omitted. -/
structure State where
  workTime : ℤ
  restTime : ℤ
  startTime : ℤ
  pausedTime : ℤ
  totalTime : ℤ
  status : TimerStatus
  isWorkPhase : Bool
  isMuted : Bool
  phaseCount : ℤ
  animationFrameId : Option ℕ
  countdownTimeoutId : Option ℕ
  deriving DecidableEq

/-- Initial state, from the literal `_state` in `src/src/state.js`:
30 s work, 10 s rest, idle, work phase. -/
def initState : State :=
  { workTime := 30000
    restTime := 10000
    startTime := 0
    pausedTime := 0
    totalTime := 30000
    status := TimerStatus.idle
    isWorkPhase := true
    isMuted := false
    phaseCount := 0
    animationFrameId := none
    countdownTimeoutId := none }

/-- `start()` from `src/unnamed/part_003`: sets `status = RUNNING` and
`startTime = performance.now() - pausedTime` (clock reading `t`). -/
def State.start (t : ℤ) (s : State) : State :=
  { s with status := TimerStatus.running, startTime := t - s.pausedTime }

/-- `pause()` from `src/unnamed/part_003`: sets `status = PAUSED`
unconditionally and clears `animationFrameId`. -/
def State.pause (s : State) : State :=
  { s with status := TimerStatus.paused, animationFrameId := none }

/-- `getElapsed()` from `src/unnamed/part_003`:
`performance.now() - startTime` at clock reading `t`. -/
def State.getElapsed (t : ℤ) (s : State) : ℤ :=
  t - s.startTime

/-- `isPhaseComplete(elapsed)` from `src/unnamed/part_003`:
`elapsed >= totalTime`. -/
def State.isPhaseComplete (elapsed : ℤ) (s : State) : Bool :=
  elapsed ≥ s.totalTime

/-- `reset()` from `src/unnamed/part_003`: clears the countdown timeout and
animation frame, returns to idle work phase with `totalTime = workTime` and
`phaseCount = 0`. -/
def State.reset (s : State) : State :=
  { s with countdownTimeoutId := none
           animationFrameId := none
           status := TimerStatus.idle
           isWorkPhase := true
           pausedTime := 0
           totalTime := s.workTime
           phaseCount := 0 }

/-- `switchPhase()` from `src/unnamed/part_003` at clock reading `t`: flips
`isWorkPhase`, zeroes `pausedTime`, restarts the reference clock, recomputes
`totalTime`, and increments `phaseCount` exactly when the NEW phase is rest
(`if (!state.isWorkPhase) state.phaseCount++` after the flip). -/
def State.switchPhase (t : ℤ) (s : State) : State :=
  let w := !s.isWorkPhase
  { s with isWorkPhase := w
           pausedTime := 0
           startTime := t
           totalTime := if w then s.workTime else s.restTime
           phaseCount := if w then s.phaseCount else s.phaseCount + 1 }

/-- `cancelCountdown()` from `src/unnamed/part_003`: clears any pending
countdown timeout (`clearTimeout`), then returns `status` to idle if it was
countdown. -/
def State.cancelCountdown (s : State) : State :=
  { s with countdownTimeoutId := none
           status := if s.status = TimerStatus.countdown
                     then TimerStatus.idle else s.status }

/-- Loop body of `countdown(onTick)` in `src/unnamed/part_003`, fuel = the
loop counter `i` (3, 2, 1).  `env i` is the cumulative effect of external
events that run during the one-second wait that follows tick `i` (the only
interleaving points of the single-threaded runtime).  Each iteration:

* checks `state.status !== COUNTDOWN` and resolves `false` if so;
* delivers `onTick(i)` (recorded in the tick list);
* stores the pending wait's handle in `countdownTimeoutId` (`setTimeout`) and
  suspends.  If, during the wait, an external event cleared the stored handle
  (`clearTimeout` in `cancelCountdown`/`reset`), the awaited promise is never
  resolved and the countdown never returns: outcome `none`.  Otherwise the
  wait resolves and the loop continues.

After the loop the handle is cleared and the promise resolves `true`. -/
def countdownGo (env : ℕ → State → State) :
    ℕ → State → List ℕ → State × List ℕ × Option Bool
  | 0, s, acc => ({ s with countdownTimeoutId := none }, acc, some true)
  | i + 1, s, acc =>
      if s.status ≠ TimerStatus.countdown then (s, acc, some false)
      else
        let s1 := { s with countdownTimeoutId := some (i + 1) }
        let s2 := env (i + 1) s1
        if s2.countdownTimeoutId = none then (s2, acc ++ [i + 1], none)
        else countdownGo env i s2 (acc ++ [i + 1])

/-- `countdown(onTick)` from `src/unnamed/part_003`: sets
`status = COUNTDOWN`, then runs the loop for `i = 3, 2, 1`.  Result: final
state, the list of values delivered to `onTick` in order, and the promise
outcome (`some true` = resolved Completed, `some false` = resolved Cancelled,
`none` = never resolves because its pending timeout was cleared). -/
def State.countdown (env : ℕ → State → State) (s : State) :
    State × List ℕ × Option Bool :=
  countdownGo env 3 { s with status := TimerStatus.countdown } []

/-- Pause path of `handleToggleTimer` in `src/src/app.js` (the
`status === RUNNING` branch): `timer.pause(); state.pausedTime =
timer.getElapsed()` at clock reading `t`. -/
def pauseCapture (t : ℤ) (s : State) : State :=
  let s1 := State.pause s
  { s1 with pausedTime := State.getElapsed t s1 }

/-- One invocation of `animate` inside `startAnimationLoop`
(`src/unnamed/part_003`) at clock reading `t`, with
`onPhaseComplete = handlePhaseSwitch` of `src/src/app.js` (which calls
`timer.switchPhase()`).  Returns the new state and whether `switchPhase` was
invoked on this frame.  If the status is not RUNNING the frame returns
immediately; otherwise it computes `elapsed`, on completion stores
`pausedTime = elapsed` and switches phase, then schedules the next frame
(`animationFrameId` holds the opaque `requestAnimationFrame` handle). -/
def animateStep (t : ℤ) (s : State) : State × Bool :=
  if s.status ≠ TimerStatus.running then (s, false)
  else if State.isPhaseComplete (State.getElapsed t s) s then
    ({ State.switchPhase t { s with pausedTime := State.getElapsed t s } with
        animationFrameId := some 0 }, true)
  else ({ s with animationFrameId := some 0 }, false)

/-- `handleWorkTimeChange` from `src/src/app.js`.  The change event's
`parseInt(e.target.value, 10)` is modelled as `none` (NaN) or `some v`.
Returns the new state together with the value written back into the input
field when the input is reverted (`Math.floor(state.workTime / 1000)`), or
`none` when the field is left as typed.  A valid value is stored into
`workTime` unconditionally; `totalTime` (and the display) are refreshed only
when `status === IDLE && isWorkPhase`. -/
def handleWorkTimeChange (value : Option ℤ) (s : State) : State × Option ℤ :=
  match value with
  | none => (s, some (Int.fdiv s.workTime 1000))
  | some v =>
      if v ≤ 0 then (s, some (Int.fdiv s.workTime 1000))
      else
        let s1 := { s with workTime := v * 1000 }
        if s1.status = TimerStatus.idle ∧ s1.isWorkPhase then
          ({ s1 with totalTime := s1.workTime }, none)
        else (s1, none)

/-- `handleRestTimeChange` from `src/src/app.js`, mirror image of
`handleWorkTimeChange` (guard `status === IDLE && !isWorkPhase`). -/
def handleRestTimeChange (value : Option ℤ) (s : State) : State × Option ℤ :=
  match value with
  | none => (s, some (Int.fdiv s.restTime 1000))
  | some v =>
      if v ≤ 0 then (s, some (Int.fdiv s.restTime 1000))
      else
        let s1 := { s with restTime := v * 1000 }
        if s1.status = TimerStatus.idle ∧ ¬s1.isWorkPhase then
          ({ s1 with totalTime := s1.restTime }, none)
        else (s1, none)

/-- Events of the timer's transition system, each carrying the delay (in ms,
nonnegative) by which the monotonic clock advances before the event runs.
These are the transitions named by the spec: `start`, the app's
pause-and-capture, `reset`, `switchPhase`, the state mutations performed by a
`countdown` run at its entry (`status = COUNTDOWN`) and at its natural
completion (`countdownTimeoutId = null`), `cancelCountdown`, and one frame of
the animation loop. -/
inductive Ev where
  | start (d : ℕ)
  | pauseCap (d : ℕ)
  | reset (d : ℕ)
  | switchPhase (d : ℕ)
  | cdBegin (d : ℕ)
  | cdFinish (d : ℕ)
  | cancelCd (d : ℕ)
  | animTick (d : ℕ)
  deriving DecidableEq

/-- Clocked small step: advance the clock by the event's delay, then apply
the event's state transformation from the source. -/
def stepEv : ℤ × State → Ev → ℤ × State
  | (t, s), Ev.start d => (t + d, State.start (t + d) s)
  | (t, s), Ev.pauseCap d => (t + d, pauseCapture (t + d) s)
  | (t, s), Ev.reset d => (t + d, State.reset s)
  | (t, s), Ev.switchPhase d => (t + d, State.switchPhase (t + d) s)
  | (t, s), Ev.cdBegin d => (t + d, { s with status := TimerStatus.countdown })
  | (t, s), Ev.cdFinish d => (t + d, { s with countdownTimeoutId := none })
  | (t, s), Ev.cancelCd d => (t + d, State.cancelCountdown s)
  | (t, s), Ev.animTick d => (t + d, (animateStep (t + d) s).1)

/-- Run of the transition system from the initial state at clock 0. -/
def runEv (evs : List Ev) : ℤ × State :=
  evs.foldl stepEv (0, initState)

/-- `Math.ceil(n / d)` for integers `n` and `d > 0`: the ceiling of the
exact rational quotient, computed as `-⌊-n / d⌋`.  The source's divisions
feeding `Math.ceil` have integer operands, so this is exact (see
`jsCeilDiv_eq_ceil` below). -/
def jsCeilDiv (n d : ℤ) : ℤ := -(Int.fdiv (-n) d)

/-- `padStart(2, "0")` on a rendered number, from the time formatting in
`updateDisplay` (`src/src/ui.js`). -/
def padStart2 (str : String) : String :=
  if str.length ≥ 2 then str
  else String.mk (List.replicate (2 - str.length) '0') ++ str

/-- MM:SS rendering of a nonnegative number of seconds, from `updateDisplay`
(`src/src/ui.js`): `minutes = Math.floor(remaining / 60)`,
`seconds = remaining % 60`, both zero-padded to two digits.  The argument is
nonnegative in both uses, where floor division and the JS remainder agree
with `Int.fdiv` and `Int.emod`. -/
def formatMMSS (remaining : ℤ) : String :=
  padStart2 (toString (Int.fdiv remaining 60)) ++ ":" ++
    padStart2 (toString (Int.emod remaining 60))

/-- `updateDisplay(elapsed, totalTime)` from `src/src/ui.js`, restricted to
its pure derivation: the rendered time string and the progress ratio.
`safeElapsed = Math.max(0, Math.min(elapsed, totalTime))`;
`safeTotalTime = totalTime > 0 ? totalTime : 1`;
`remaining = Math.max(0, Math.ceil((safeTotalTime - safeElapsed) / 1000))`;
`progress = Math.min(Math.max(0, safeElapsed / safeTotalTime), 1)`. -/
def updateDisplay (elapsed totalTime : ℤ) : String × ℚ :=
  let safeElapsed := max 0 (min elapsed totalTime)
  let safeTotalTime := if totalTime > 0 then totalTime else 1
  let remaining := max 0 (jsCeilDiv (safeTotalTime - safeElapsed) 1000)
  (formatMMSS remaining,
   min (max 0 ((safeElapsed : ℚ) / (safeTotalTime : ℚ))) 1)

/-- Display derivation exactly as the specification words it:
`remainingMs = max(0, totalTimeMs - clamp(elapsed, 0, totalTimeMs))`,
displayed seconds `= ceil(remainingMs / 1000)` rendered as zero-padded MM:SS,
and `progress ratio = clamp(elapsed / totalTimeMs, 0, 1)` with `totalTimeMs`
treated as `1` when it is `0`.  Kept separate from `updateDisplay` so the two
can be compared. -/
def specDisplay (elapsed totalTime : ℤ) : String × ℚ :=
  let remainingMs := max 0 (totalTime - max 0 (min elapsed totalTime))
  let secs := jsCeilDiv remainingMs 1000
  let safeT : ℚ := if totalTime = 0 then 1 else (totalTime : ℚ)
  (formatMMSS secs, max 0 (min ((elapsed : ℚ) / safeT) 1))

end Hiit

namespace HiitFlag

/-- Timer state of the boolean-flag variant, from `src/unnamed/part_002`:
durations are in seconds, status lives in `isRunning` / `isCountingDown`. -/
structure State where
  workTime : ℤ
  restTime : ℤ
  startTime : ℤ
  pausedTime : ℤ
  totalTime : ℤ
  isRunning : Bool
  isWorkPhase : Bool
  isMuted : Bool
  phaseCount : ℤ
  animationFrameId : Option ℕ
  isCountingDown : Bool
  deriving DecidableEq

/-- Initial state, from the literal `state` in `src/unnamed/part_002`:
30 s work, 10 s rest, not running, work phase. -/
def initState : State :=
  { workTime := 30
    restTime := 10
    startTime := 0
    pausedTime := 0
    totalTime := 30000
    isRunning := false
    isWorkPhase := true
    isMuted := false
    phaseCount := 0
    animationFrameId := none
    isCountingDown := false }

/-- `start()` from `src/src/timer.js` at clock reading `t`. -/
def State.start (t : ℤ) (s : State) : State :=
  { s with isRunning := true, startTime := t - s.pausedTime }

/-- `pause()` from `src/src/timer.js`. -/
def State.pause (s : State) : State :=
  { s with isRunning := false, animationFrameId := none }

/-- `switchPhase()` from `src/src/timer.js` at clock reading `t`: flips
`isWorkPhase`, zeroes `pausedTime`, restarts the reference clock, recomputes
`totalTime` in ms from the second-valued durations, and increments
`phaseCount` exactly when the NEW phase is work
(`if (state.isWorkPhase) state.phaseCount++` after the flip). -/
def State.switchPhase (t : ℤ) (s : State) : State :=
  let w := !s.isWorkPhase
  { s with isWorkPhase := w
           pausedTime := 0
           startTime := t
           totalTime := (if w then s.workTime else s.restTime) * 1000
           phaseCount := if w then s.phaseCount + 1 else s.phaseCount }

/-- `cancelCountdown()` from `src/src/timer.js`: clears the flag only. -/
def State.cancelCountdown (s : State) : State :=
  { s with isCountingDown := false }

/-- Loop body of `countdown(onTick)` in `src/src/timer.js`, fuel = the loop
counter `i` (3, 2, 1); `env i` is the effect of external events during the
one-second wait after tick `i`.  The wait is an anonymous
`setTimeout`-resolved promise, never stored and never cleared, so it always
resolves; cancellation is consulted only by the `!state.isCountingDown` check
at the head of each iteration.  After the loop the flag is cleared and the
promise resolves `true`. -/
def countdownGo (env : ℕ → State → State) :
    ℕ → State → List ℕ → State × List ℕ × Bool
  | 0, s, acc => ({ s with isCountingDown := false }, acc, true)
  | i + 1, s, acc =>
      if s.isCountingDown = false then (s, acc, false)
      else countdownGo env i (env (i + 1) s) (acc ++ [i + 1])

/-- `countdown(onTick)` from `src/src/timer.js`: sets `isCountingDown`, runs
the loop for `i = 3, 2, 1`; returns final state, delivered tick values in
order, and the resolved boolean (`true` = Completed, `false` = Cancelled). -/
def State.countdown (env : ℕ → State → State) (s : State) :
    State × List ℕ × Bool :=
  countdownGo env 3 { s with isCountingDown := true } []

end HiitFlag

/-! Scenario-specific definitions used by the theorems below. -/

/-- Interleaving in which `cancelCountdown()` runs during the one-second wait
that follows the tick with value 3 (and nothing else intervenes). -/
def cancelAfterFirstTick : ℕ → Hiit.State → Hiit.State :=
  fun i s => if i = 3 then Hiit.State.cancelCountdown s else s

/-- Interleaving in which `cancelCountdown()` (boolean-flag variant) runs
during the one-second wait that follows the tick with value 1. -/
def cancelDuringLastWait : ℕ → HiitFlag.State → HiitFlag.State :=
  fun i s => if i = 1 then HiitFlag.State.cancelCountdown s else s

/-- Idle configuration with `workDurationMs = 5000`, `restDurationMs = 3000`
in the work phase. -/
def c3Config : Hiit.State :=
  { Hiit.initState with workTime := 5000, restTime := 3000, totalTime := 5000 }

/-- The configuration above freshly started (`start()` at clock 0 with
`pausedTime = 0`). -/
def c3Start : Hiit.State := Hiit.State.start 0 c3Config

/-- Event trace refuting the `pausedElapsedMs ≤ totalTimeMs` bound: a
countdown runs to completion (3 s), the timer starts, and the user pauses
40000 ms later — past the 30000 ms work phase's end, before any animation
frame observed completion. -/
def c2CexTrace : List Hiit.Ev :=
  [Hiit.Ev.cdBegin 0, Hiit.Ev.cdFinish 3000, Hiit.Ev.start 0,
   Hiit.Ev.pauseCap 40000]

/-- Clocked invariant carried through every transition: the phase reference
timestamp never runs ahead of the monotonic clock, and the captured paused
elapsed time is nonnegative. -/
def ClockInv (p : ℤ × Hiit.State) : Prop :=
  p.2.startTime ≤ p.1 ∧ 0 ≤ p.2.pausedTime

/-- A running timer state (durations as in the initial state). -/
def c7Running : Hiit.State :=
  { Hiit.initState with status := Hiit.TimerStatus.running }

/-! Claim theorems. -/

/-- C1: cancelling via `cancelCountdown()` during the wait after the tick
with value 3 delivers no further ticks and returns the status to Idle, but
the countdown operation never yields `Cancelled` (returns `false`): the
cancellation clears the very `setTimeout` whose resolution the countdown is
awaiting, so the promise never settles (outcome `none`), contradicting the
function's own documented contract "Resolves to ... false if cancelled". -/
theorem c1_cancel_countdown_never_resolves (s : Hiit.State) :
    (Hiit.State.countdown cancelAfterFirstTick s).2.1 = [3]
    ∧ (Hiit.State.countdown cancelAfterFirstTick s).2.2 = none
    ∧ (Hiit.State.countdown cancelAfterFirstTick s).1.status
        = Hiit.TimerStatus.idle :=
  ⟨rfl, rfl, rfl⟩

/-- C5: an uninterrupted countdown delivers exactly the ticks 3, 2, 1 in
order (each recorded before the following wait), resolves `Completed`
(`true`), and leaves the status at Countdown; a subsequent explicit `start()`
is what makes the status Running. -/
theorem c5_countdown_completion (s : Hiit.State) (t : ℤ) :
    (Hiit.State.countdown (fun _ s' => s') s).2.1 = [3, 2, 1]
    ∧ (Hiit.State.countdown (fun _ s' => s') s).2.2 = some true
    ∧ (Hiit.State.countdown (fun _ s' => s') s).1.status
        = Hiit.TimerStatus.countdown
    ∧ (Hiit.State.start t
        (Hiit.State.countdown (fun _ s' => s') s).1).status
        = Hiit.TimerStatus.running :=
  ⟨rfl, rfl, rfl, rfl⟩

/-- C6 counterexample: the initial state is Idle (not Running), yet `pause()`
does change it — the status becomes Paused, so `pause()` from a non-Running
state is not a no-op. -/
theorem c6_counterexample :
    Hiit.initState.status ≠ Hiit.TimerStatus.running
    ∧ Hiit.State.pause Hiit.initState ≠ Hiit.initState
    ∧ (Hiit.State.pause Hiit.initState).status = Hiit.TimerStatus.paused := by
  decide

/-- C6 amended: `pause()` is unguarded — from every state, whatever its
status, it sets `status = Paused` and clears `animationFrameId`, leaving all
other fields unchanged; the not-Running no-op is enforced only by the caller
(`handleToggleTimer` invokes `pause()` solely from its Running branch). -/
theorem c6_amended_pause_unguarded (s : Hiit.State) :
    (Hiit.State.pause s).status = Hiit.TimerStatus.paused
    ∧ (Hiit.State.pause s).animationFrameId = none
    ∧ (Hiit.State.pause s).workTime = s.workTime
    ∧ (Hiit.State.pause s).restTime = s.restTime
    ∧ (Hiit.State.pause s).startTime = s.startTime
    ∧ (Hiit.State.pause s).pausedTime = s.pausedTime
    ∧ (Hiit.State.pause s).totalTime = s.totalTime
    ∧ (Hiit.State.pause s).isWorkPhase = s.isWorkPhase
    ∧ (Hiit.State.pause s).isMuted = s.isMuted
    ∧ (Hiit.State.pause s).phaseCount = s.phaseCount
    ∧ (Hiit.State.pause s).countdownTimeoutId = s.countdownTimeoutId :=
  ⟨rfl, rfl, rfl, rfl, rfl, rfl, rfl, rfl, rfl, rfl, rfl⟩

/-- C9: the two `switchPhase` variants disagree on the `phaseCount` increment
point.  The boolean-flag variant (`src/src/timer.js`) increments exactly when
the NEW phase is work (i.e. the old `isWorkPhase` is `false`), while the
status-enum variant (`src/unnamed/part_003`) increments exactly when the NEW
phase is rest (old `isWorkPhase` is `true`); so on either kind of switch
precisely one of the two variants increments. -/
theorem c9_switch_phase_variants_disagree (t : ℤ) (s : Hiit.State)
    (sb : HiitFlag.State) :
    (HiitFlag.State.switchPhase t sb).phaseCount
      = sb.phaseCount + (if sb.isWorkPhase then 0 else 1)
    ∧ (Hiit.State.switchPhase t s).phaseCount
      = s.phaseCount + (if s.isWorkPhase then 1 else 0) := by
  constructor
  · cases h : sb.isWorkPhase <;>
      simp [HiitFlag.State.switchPhase, h]
  · cases h : s.isWorkPhase <;>
      simp [Hiit.State.switchPhase, h]

/-- C10: in the boolean-flag variant, clearing `isCountingDown` during the
wait that follows the final tick (value 1) is ignored — the loop has no
further head check, so the countdown still delivers exactly 3, 2, 1, clears
the flag itself, and resolves `Completed` (`true`), not `Cancelled`. -/
theorem c10_late_cancel_ignored (s : HiitFlag.State) :
    (HiitFlag.State.countdown cancelDuringLastWait s).2.1 = [3, 2, 1]
    ∧ (HiitFlag.State.countdown cancelDuringLastWait s).2.2 = true
    ∧ (HiitFlag.State.countdown cancelDuringLastWait s).1.isCountingDown
        = false :=
  ⟨rfl, rfl, rfl⟩

/-- Every clocked transition preserves `ClockInv`: the reference timestamp
stays at or behind the clock, and the captured paused elapsed time stays
nonnegative. -/
theorem stepEv_clockInv (t : ℤ) (s : Hiit.State) (e : Hiit.Ev)
    (h1 : s.startTime ≤ t) (h2 : 0 ≤ s.pausedTime) :
    ClockInv (Hiit.stepEv (t, s) e) := by
  cases e with
  | start d =>
      exact ⟨by simp [Hiit.stepEv, Hiit.State.start]; omega,
             by simpa [Hiit.stepEv, Hiit.State.start] using h2⟩
  | pauseCap d =>
      refine ⟨?_, ?_⟩ <;>
        simp [Hiit.stepEv, Hiit.pauseCapture, Hiit.State.pause,
          Hiit.State.getElapsed] <;> omega
  | reset d =>
      exact ⟨by simp [Hiit.stepEv, Hiit.State.reset]; omega,
             by simp [Hiit.stepEv, Hiit.State.reset]⟩
  | switchPhase d =>
      exact ⟨by simp [Hiit.stepEv, Hiit.State.switchPhase],
             by simp [Hiit.stepEv, Hiit.State.switchPhase]⟩
  | cdBegin d => exact ⟨by simp [Hiit.stepEv]; omega, by simpa [Hiit.stepEv] using h2⟩
  | cdFinish d => exact ⟨by simp [Hiit.stepEv]; omega, by simpa [Hiit.stepEv] using h2⟩
  | cancelCd d =>
      exact ⟨by simp [Hiit.stepEv, Hiit.State.cancelCountdown]; omega,
             by simpa [Hiit.stepEv, Hiit.State.cancelCountdown] using h2⟩
  | animTick d =>
      refine ⟨?_, ?_⟩ <;>
        · simp only [Hiit.stepEv, Hiit.animateStep, Hiit.State.switchPhase,
            Hiit.State.isPhaseComplete, Hiit.State.getElapsed]
          split_ifs <;> simp <;> omega

/-- Folding any event list preserves `ClockInv`. -/
theorem foldl_clockInv (evs : List Hiit.Ev) :
    ∀ p : ℤ × Hiit.State, ClockInv p → ClockInv (evs.foldl Hiit.stepEv p) := by
  induction evs with
  | nil => intro p h; exact h
  | cons e tl ih =>
      intro p h
      exact ih _ (stepEv_clockInv p.1 p.2 e h.1 h.2)

/-- C2 counterexample: the trace countdown-complete, start, pause 40000 ms
later leaves the reachable state with `pausedTime = 40000` while
`totalTime = 30000`, violating the claimed bound
`pausedElapsedMs ≤ totalTimeMs` (the pause captured an elapsed time past the
phase's end before any animation frame observed completion). -/
theorem c2_counterexample :
    (Hiit.runEv c2CexTrace).2.status = Hiit.TimerStatus.paused
    ∧ (Hiit.runEv c2CexTrace).2.pausedTime = 40000
    ∧ (Hiit.runEv c2CexTrace).2.totalTime = 30000
    ∧ ¬ (Hiit.runEv c2CexTrace).2.pausedTime
        ≤ (Hiit.runEv c2CexTrace).2.totalTime := by
  decide

/-- C2 amended: in every state reachable from the initial state via the
defined transitions, `status` is one of the four enumerated values and
`pausedElapsedMs ≥ 0`; the claimed upper bound
`pausedElapsedMs ≤ totalTimeMs` does not hold in general, because pausing
after the clock has passed the current phase's end (but before the animation
loop observed completion) stores the overshooting elapsed time. -/
theorem c2_amended_reachable_invariant (evs : List Hiit.Ev) :
    ((Hiit.runEv evs).2.status = Hiit.TimerStatus.idle
      ∨ (Hiit.runEv evs).2.status = Hiit.TimerStatus.countdown
      ∨ (Hiit.runEv evs).2.status = Hiit.TimerStatus.running
      ∨ (Hiit.runEv evs).2.status = Hiit.TimerStatus.paused)
    ∧ 0 ≤ (Hiit.runEv evs).2.pausedTime := by
  constructor
  · cases h : (Hiit.runEv evs).2.status
    · exact Or.inl rfl
    · exact Or.inr (Or.inl rfl)
    · exact Or.inr (Or.inr (Or.inl rfl))
    · exact Or.inr (Or.inr (Or.inr rfl))
  · exact (foldl_clockInv evs (0, Hiit.initState) ⟨le_refl 0, le_refl 0⟩).2

/-- C3: with `workDurationMs = 5000`, `restDurationMs = 3000`, started fresh
in the work phase at clock 0: frames before elapsed 5000 trigger no switch,
the frame at elapsed exactly 5000 triggers exactly one `switchPhase()` call
setting `totalTimeMs = 3000` and `isWorkPhase = false` while the status stays
Running, and any subsequent frame before the rest phase's end (clock < 8000)
triggers no further switch. -/
theorem c3_single_phase_switch (t' u : ℤ) (h1 : 5000 ≤ t') (h2 : t' < 8000)
    (h3 : u < 5000) :
    (Hiit.animateStep u c3Start).2 = false
    ∧ (Hiit.animateStep 5000 c3Start).2 = true
    ∧ (Hiit.animateStep 5000 c3Start).1.totalTime = 3000
    ∧ (Hiit.animateStep 5000 c3Start).1.isWorkPhase = false
    ∧ (Hiit.animateStep 5000 c3Start).1.status = Hiit.TimerStatus.running
    ∧ (Hiit.animateStep t' (Hiit.animateStep 5000 c3Start).1).2 = false := by
  refine ⟨?_, by decide, by decide, by decide, by decide, ?_⟩
  · have hu : ¬ (5000 : ℤ) ≤ u := by omega
    simp [Hiit.animateStep, c3Start, c3Config, Hiit.State.start,
      Hiit.initState, Hiit.State.isPhaseComplete, Hiit.State.getElapsed, hu]
  · have ht : ¬ (3000 : ℤ) ≤ t' - 5000 := by omega
    simp [Hiit.animateStep, c3Start, c3Config, Hiit.State.start,
      Hiit.initState, Hiit.State.isPhaseComplete, Hiit.State.getElapsed,
      Hiit.State.switchPhase, ht]

/-- C3 witness: the second frame taken at clock 5016 (~one frame later). -/
theorem c3_witness :
    (5000 : ℤ) ≤ 5016 ∧ (5016 : ℤ) < 8000 ∧ (2500 : ℤ) < 5000
    ∧ (Hiit.animateStep 5016 (Hiit.animateStep 5000 c3Start).1).2 = false :=
  ⟨by decide, by decide, by decide,
   (c3_single_phase_switch 5016 2500 (by decide) (by decide)
     (by decide)).2.2.2.2.2⟩

/-- C4: elapsed time is continuous across pause/resume.  From any state with
`pausedElapsedMs = 0`, `start()` at clock `t`, pausing 12000 ms later
captures `pausedElapsedMs = 12000`; `start()` again at that instant (which
sets `referenceStart = now - pausedElapsedMs`) followed by 1000 ms makes
`getElapsed()` return 13000, not 1000. -/
theorem c4_resume_continuity (s : Hiit.State) (t : ℤ)
    (h : s.pausedTime = 0) :
    (Hiit.pauseCapture (t + 12000) (Hiit.State.start t s)).pausedTime = 12000
    ∧ Hiit.State.getElapsed (t + 13000)
        (Hiit.State.start (t + 12000)
          (Hiit.pauseCapture (t + 12000) (Hiit.State.start t s))) = 13000
    ∧ (13000 : ℤ) ≠ 1000 := by
  refine ⟨?_, ?_, by decide⟩ <;>
    simp [Hiit.pauseCapture, Hiit.State.start, Hiit.State.pause,
      Hiit.State.getElapsed, h]

/-- C4 witness: the scenario run from the initial state at clock 0. -/
theorem c4_witness :
    Hiit.initState.pausedTime = 0
    ∧ (Hiit.pauseCapture 12000 (Hiit.State.start 0 Hiit.initState)).pausedTime
        = 12000
    ∧ Hiit.State.getElapsed 13000
        (Hiit.State.start 12000
          (Hiit.pauseCapture 12000 (Hiit.State.start 0 Hiit.initState)))
        = 13000 := by
  have h := c4_resume_continuity Hiit.initState 0 (by decide)
  exact ⟨by decide, by simpa using h.1, by simpa using h.2.1⟩

/-- C7 counterexample: with the timer Running (not Idle), a valid
work-duration change event (`42`) still mutates the stored duration — the
assignment `state.workTime = value * 1000` precedes the Idle guard, which
protects only the `totalTime` refresh. -/
theorem c7_counterexample :
    c7Running.status ≠ Hiit.TimerStatus.idle
    ∧ c7Running.workTime = 30000
    ∧ (Hiit.handleWorkTimeChange (some 42) c7Running).1.workTime = 42000
    ∧ (Hiit.handleWorkTimeChange (some 42) c7Running).1.workTime
        ≠ c7Running.workTime := by
  decide

/-- C7 amended: an invalid duration value (non-numeric or ≤ 0) reverts the
input field to the stored duration in whole seconds and leaves the timer
state entirely unchanged; a valid value is converted to milliseconds and
stored into the work/rest duration in EVERY status, while only the derived
`totalTime` refresh is restricted to `status = Idle` with the matching phase
current. -/
theorem c7_amended_duration_change (s : Hiit.State) (v : ℤ) :
    Hiit.handleWorkTimeChange none s = (s, some (Int.fdiv s.workTime 1000))
    ∧ Hiit.handleRestTimeChange none s = (s, some (Int.fdiv s.restTime 1000))
    ∧ (v ≤ 0 →
        Hiit.handleWorkTimeChange (some v) s
          = (s, some (Int.fdiv s.workTime 1000))
        ∧ Hiit.handleRestTimeChange (some v) s
          = (s, some (Int.fdiv s.restTime 1000)))
    ∧ (0 < v →
        (Hiit.handleWorkTimeChange (some v) s).1.workTime = v * 1000
        ∧ (Hiit.handleWorkTimeChange (some v) s).2 = none
        ∧ (Hiit.handleWorkTimeChange (some v) s).1.status = s.status
        ∧ (Hiit.handleWorkTimeChange (some v) s).1.restTime = s.restTime
        ∧ (Hiit.handleWorkTimeChange (some v) s).1.totalTime
            = (if s.status = Hiit.TimerStatus.idle ∧ s.isWorkPhase
               then v * 1000 else s.totalTime)
        ∧ (Hiit.handleRestTimeChange (some v) s).1.restTime = v * 1000
        ∧ (Hiit.handleRestTimeChange (some v) s).2 = none
        ∧ (Hiit.handleRestTimeChange (some v) s).1.status = s.status
        ∧ (Hiit.handleRestTimeChange (some v) s).1.workTime = s.workTime
        ∧ (Hiit.handleRestTimeChange (some v) s).1.totalTime
            = (if s.status = Hiit.TimerStatus.idle ∧ ¬ s.isWorkPhase
               then v * 1000 else s.totalTime)) := by
  refine ⟨rfl, rfl, fun hv => ?_, fun hv => ?_⟩
  · constructor <;>
      simp [Hiit.handleWorkTimeChange, Hiit.handleRestTimeChange, hv]
  · have hv' : ¬ v ≤ 0 := by omega
    simp only [Hiit.handleWorkTimeChange, Hiit.handleRestTimeChange, hv',
      if_false]
    split_ifs <;> simp_all

/-- C7 witness: a valid change (`5`) from the Idle initial state and an
invalid change (`-2`), instantiating the amended theorem. -/
theorem c7_witness :
    (0 : ℤ) < 5
    ∧ (Hiit.handleWorkTimeChange (some 5) Hiit.initState).1.workTime = 5 * 1000
    ∧ (-2 : ℤ) ≤ 0
    ∧ Hiit.handleWorkTimeChange (some (-2)) Hiit.initState
        = (Hiit.initState, some (Int.fdiv Hiit.initState.workTime 1000)) :=
  ⟨by decide, ((c7_amended_duration_change Hiit.initState 5).2.2.2
      (by decide)).1,
   by decide, ((c7_amended_duration_change Hiit.initState (-2)).2.2.1
      (by decide)).1⟩

/-- The integer ceiling division used in the display model is exactly the
mathematical ceiling of the rational quotient (`Math.ceil` on the exact
value). -/
theorem jsCeilDiv_eq_ceil (n : ℤ) :
    Hiit.jsCeilDiv n 1000 = ⌈(n : ℚ) / 1000⌉ := by
  rw [Hiit.jsCeilDiv, Int.fdiv_eq_ediv _ (by norm_num)]
  rw [show ((1000 : ℚ)) = ((1000 : ℕ) : ℚ) by norm_num]
  rw [show ((n : ℚ)) / ((1000 : ℕ) : ℚ)
      = -(((-n : ℤ) : ℚ) / ((1000 : ℕ) : ℚ)) by push_cast; ring]
  rw [Int.ceil_neg, Rat.floor_intCast_div_natCast]
  norm_num

/-- C8 counterexample: at `totalTimeMs = 0`, `elapsed = 500` the code and the
claimed formula disagree on both components.  The code also routes the
seconds computation through the safe total
(`Math.ceil((safeTotalTime - safeElapsed) / 1000)` with `safeTotalTime = 1`)
and clamps `elapsed` to `[0, totalTimeMs]` BEFORE dividing by the safe
total, so it renders "00:01" with ratio 0, while the claimed formula yields
"00:00" with ratio 1. -/
theorem c8_counterexample :
    Hiit.updateDisplay 500 0 ≠ Hiit.specDisplay 500 0
    ∧ (Hiit.updateDisplay 500 0).1 = "00:01"
    ∧ (Hiit.specDisplay 500 0).1 = "00:00"
    ∧ (Hiit.updateDisplay 500 0).2 = 0
    ∧ (Hiit.specDisplay 500 0).2 = 1 := by
  refine ⟨fun hc => absurd (congrArg Prod.fst hc) (by decide), by decide,
    by decide, by norm_num [Hiit.updateDisplay], by norm_num [Hiit.specDisplay]⟩

/-- C8 amended: for every `elapsed` and every `totalTimeMs > 0` the display
derivation agrees exactly with the claimed formula
(`remainingMs = max(0, totalTimeMs - clamp(elapsed, 0, totalTimeMs))`,
seconds `= ceil(remainingMs / 1000)` as zero-padded MM:SS, ratio
`= clamp(elapsed / totalTimeMs, 0, 1)`); the `totalTimeMs = 0` fallback
behaves differently (see the counterexample).  The claim's concrete boundary
instances hold: `elapsed = totalTimeMs = 10000` renders "00:00" with ratio 1,
and `elapsed = 9001` renders "00:01". -/
theorem c8_amended_display_derivation (e t : ℤ) (h : 0 < t) :
    Hiit.updateDisplay e t = Hiit.specDisplay e t
    ∧ (Hiit.updateDisplay 10000 10000).1 = "00:00"
    ∧ (Hiit.updateDisplay 10000 10000).2 = 1
    ∧ (Hiit.updateDisplay 9001 10000).1 = "00:01" := by
  refine ⟨?_, by decide, by norm_num [Hiit.updateDisplay], by decide⟩
  have ht : ¬ t = 0 := by omega
  simp only [Hiit.updateDisplay, Hiit.specDisplay, h, ht, if_true, if_false,
    gt_iff_lt, if_pos h, Prod.mk.injEq]
  constructor
  · have hse : max 0 (min e t) ≤ t := max_le h.le (min_le_right e t)
    have h2 : max 0 (t - max 0 (min e t)) = t - max 0 (min e t) :=
      max_eq_right (by omega)
    have h3 : 0 ≤ Hiit.jsCeilDiv (t - max 0 (min e t)) 1000 := by
      rw [jsCeilDiv_eq_ceil]
      exact Int.ceil_nonneg
        (div_nonneg (by exact_mod_cast sub_nonneg.mpr hse) (by norm_num))
    rw [h2, max_eq_right h3]
  · rcases le_or_lt e 0 with he | he
    · rw [min_eq_left (he.trans h.le), max_eq_left he]
      have h4 : (e : ℚ) / (t : ℚ) ≤ 0 :=
        div_nonpos_iff.mpr (Or.inr ⟨by exact_mod_cast he, by positivity⟩)
      rw [min_eq_left (h4.trans zero_le_one), max_eq_left h4]
      norm_num
    · rcases le_or_lt e t with het | het
      · rw [min_eq_left het, max_eq_right he.le]
        have h5 : (0 : ℚ) ≤ (e : ℚ) / (t : ℚ) :=
          div_nonneg (by exact_mod_cast he.le) (by positivity)
        have h6 : (e : ℚ) / (t : ℚ) ≤ 1 :=
          (div_le_one (by exact_mod_cast h)).mpr (by exact_mod_cast het)
        rw [max_eq_right h5, min_eq_left h6]
        exact (max_eq_right h5).symm
      · rw [min_eq_right het.le, max_eq_right h.le]
        have h7 : (t : ℚ) ≠ 0 := ne_of_gt (by exact_mod_cast h)
        have h8 : (1 : ℚ) ≤ (e : ℚ) / (t : ℚ) :=
          (one_le_div (by exact_mod_cast h)).mpr (by exact_mod_cast het.le)
        rw [div_self h7, min_eq_right h8]
        norm_num

/-- C8 witness: the amended agreement instantiated at the claim's own
boundary point `elapsed = totalTimeMs = 10000`. -/
theorem c8_witness :
    (0 : ℤ) < 10000
    ∧ Hiit.updateDisplay 10000 10000 = Hiit.specDisplay 10000 10000 :=
  ⟨by decide, (c8_amended_display_derivation 10000 10000 (by decide)).1⟩
